import Mathlib

/-!
Verification of the data-classification pipeline of `sales_value_matrix.py`:
encoding detection, column-name normalization, boolean-column inference,
value scoring, engagement mapping, quadrant assignment, and the upload
callback's state handling.

Strings are modelled over their character lists; Python `str.strip`,
`str.lower` and single-character `str.replace` are embedded as executable
char-list functions (`pyStrip`, `pyLower`, `pyReplaceSpace`), and Python
substring containment (`pat in s`) as `containsSubstr`.  A pandas cell is
`Option String` (`none` is NaN); `astype(str)` turns NaN into `"nan"`.
Floating-point thresholds (`0.65`, `2.0`, `0.7`) are modelled in `ℚ`, where
they are exact.  The `try/except` around the per-column boolean check is
modelled with `Except`, and the Dash callback's `no_update` outputs as
returning the previous store unchanged.
-/

namespace SalesValueMatrix

/-- Python `str.lower` (character-wise case mapping). -/
def pyLower (s : String) : String := ⟨s.data.map Char.toLower⟩

/-- Python `str.strip`: drop leading and trailing whitespace. -/
def pyStrip (s : String) : String :=
  ⟨(((s.data.dropWhile Char.isWhitespace).reverse).dropWhile Char.isWhitespace).reverse⟩

/-- Python `str.replace(' ', '_')`: a single-character replacement is a
character-wise map. -/
def pyReplaceSpace (s : String) : String :=
  ⟨s.data.map (fun c => if c = ' ' then '_' else c)⟩

/-- Does `pat` occur at the head of `s`? -/
def substrAt : List Char → List Char → Bool
  | [], _ => true
  | _ :: _, [] => false
  | a :: as, b :: bs => (a == b) && substrAt as bs

/-- Does `pat` occur anywhere in `s`? -/
def hasSubstr (pat : List Char) : List Char → Bool
  | [] => substrAt pat []
  | c :: rest => substrAt pat (c :: rest) || hasSubstr pat rest

/-- Python `pat in s` on strings. -/
def containsSubstr (s pat : String) : Bool := hasSubstr pat.data s.data

/-- A pandas cell: `none` is a missing value (NaN). -/
abbrev Cell := Option String

/-- pandas `astype(str)`: a missing value stringifies to `"nan"`. -/
def cellStr : Cell → String
  | none => "nan"
  | some s => s

/-- A pandas DataFrame: ordered columns, each a label with its cells. -/
structure DataFrame where
  cols : List (String × List Cell)
deriving DecidableEq

/-- Number of rows (length of the first column; `0` for no columns). -/
def DataFrame.nrows (df : DataFrame) : ℕ :=
  match df.cols with
  | [] => 0
  | c :: _ => c.2.length

/-- pandas `df.empty` for a rectangular frame: some axis has length zero. -/
def DataFrame.isEmpty (df : DataFrame) : Bool := df.nrows == 0

/-- The cells of the first column labelled `name` (`[]` if absent). -/
def getCol (df : DataFrame) (name : String) : List Cell :=
  ((df.cols.find? (fun c => c.1 == name)).map (fun c => c.2)).getD []

/-- Cell `i` of column `name` (`none` when out of range). -/
def cellAt (df : DataFrame) (name : String) (i : ℕ) : Cell :=
  (getCol df name).getD i none

/-- Source `detect_encoding`: the guessed encoding when chardet's confidence exceeds
`0.7`, else the `'utf-8'` fallback.  The chardet call itself is external; the
function is embedded over its result fields. -/
def detect_encoding (encoding : String) (confidence : ℚ) : String :=
  if confidence > 0.7 then encoding else "utf-8"

/-- The canonical key of one column label: `col.strip().lower().replace(' ', '_')`. -/
def normalize_label (col : String) : String :=
  pyReplaceSpace (pyLower (pyStrip col))

/-- Source `clean_column_names`: rewrite every column label to its canonical key. -/
def clean_column_names (df : DataFrame) : DataFrame :=
  ⟨df.cols.map (fun c => (normalize_label c.1, c.2))⟩

/-- Source `map_engagement_level`: ordered keyword containment tests on
`str(stage).strip().lower()`, first match wins. -/
def map_engagement_level (stage : String) : ℕ :=
  let s := pyLower (pyStrip stage)
  if containsSubstr s "untouch" then 0
  else if containsSubstr s "free" then 1
  else if containsSubstr s "direct" || containsSubstr s "da-d" then 2
  else if containsSubstr s "lite" then 3
  else if containsSubstr s "full" then 4
  else 0

/-- The boolean-like vocabulary of `process_uploaded_data`. -/
def boolVocab : List String := ["yes", "no", "y", "n", "1", "0", "true", "false"]

/-- The affirmative vocabulary of `process_data`. -/
def yesVocab : List String := ["yes", "y", "1", "true"]

/-- Embeds `df_clean[col].dropna().astype(str).str.strip().str.lower().unique()`. -/
def uniqueVals (cells : List Cell) : List String :=
  ((cells.filterMap id).map (fun s => pyLower (pyStrip s))).dedup

/-- Is every distinct non-blank value of the column in the boolean vocabulary? -/
def isBoolCol (cells : List Cell) : Bool :=
  (uniqueVals cells).all (fun v => boolVocab.contains v)

/-- The column loop of `process_uploaded_data`: each column's cells arrive as
an `Except` (the `try` body); a column whose evaluation fails is skipped
(`except: continue`), the others are kept when `isBoolCol` holds. -/
def inferBoolCols : List (String × Except Unit (List Cell)) → List String
  | [] => []
  | (name, Except.ok cells) :: rest =>
    if isBoolCol cells then name :: inferBoolCols rest else inferBoolCols rest
  | (_, Except.error _) :: rest => inferBoolCols rest

/-- The Boolean Column Set of a frame (all column evaluations succeed). -/
def value_columns_of (df : DataFrame) : List String :=
  inferBoolCols (df.cols.map (fun c => (c.1, Except.ok c.2)))

/-- One cell of the step-1 normalization of `process_data`:
`'Yes' if str(x).strip().lower() in ['yes','y','1','true'] else 'No'`. -/
def normalize_bool_cell (c : Cell) : String :=
  if yesVocab.contains (pyLower (pyStrip (cellStr c))) then "Yes" else "No"

/-- Step 1 of `process_data`: rewrite every cell of every column in
`value_columns` to the canonical `Yes`/`No` labels. -/
def normalize_value_columns (df : DataFrame) (value_columns : List String) : DataFrame :=
  ⟨df.cols.map (fun c =>
    if value_columns.contains c.1 then
      (c.1, c.2.map (fun v => some (normalize_bool_cell v)))
    else c)⟩

/-- Step 2 of `process_data` on one record: count of value columns equal to
`'Yes'` (applied after step 1 has normalized them). -/
def value_score_row (df : DataFrame) (value_columns : List String) (i : ℕ) : ℕ :=
  value_columns.countP (fun c => cellAt df c i == some "Yes")

/-- Embeds `max_score = len(value_columns) or 1`. -/
def max_score_of (value_columns : List String) : ℕ :=
  if value_columns.length = 0 then 1 else value_columns.length

/-- The first column whose name contains `stage` or `subscription`. -/
def stage_col_of (df : DataFrame) : Option String :=
  (df.cols.map (fun c => c.1)).find?
    (fun c => containsSubstr c "stage" || containsSubstr c "subscription")

/-- Step 3 of `process_data` on one record: the engagement level from the
stage column, `0` when no such column exists. -/
def engagement_row (df : DataFrame) (i : ℕ) : ℕ :=
  match stage_col_of df with
  | some c => map_engagement_level (cellStr (cellAt df c i))
  | none => 0

/-- The `np.select` quadrant classification of `process_data`, with
`value_threshold = max_score * 0.65` and `engagement_threshold = 2.0`. -/
def quadrant_of (value_score engagement_level max_score : ℕ) : String :=
  if (value_score : ℚ) ≥ (max_score : ℚ) * 0.65 ∧ (engagement_level : ℚ) ≥ 2.0 then
    "Strategic Partners"
  else if (value_score : ℚ) < (max_score : ℚ) * 0.65 ∧ (engagement_level : ℚ) ≥ 2.0 then
    "Growth Opportunities"
  else if (value_score : ℚ) ≥ (max_score : ℚ) * 0.65 ∧ (engagement_level : ℚ) < 2.0 then
    "High Value Prospects"
  else if (value_score : ℚ) < (max_score : ℚ) * 0.65 ∧ (engagement_level : ℚ) < 2.0 then
    "Basic Users"
  else "Unclassified"

/-- The derived fields `process_data` attaches to one record. -/
structure ProcessedRow where
  value_score : ℕ
  engagement_level : ℕ
  quadrant : String
deriving DecidableEq

/-- Source `process_data`: normalize the value columns, then derive each record's
value score, engagement level and quadrant; returns the normalized frame, the
derived rows and `max_score`. -/
def process_data (df : DataFrame) (value_columns : List String) :
    DataFrame × List ProcessedRow × ℕ :=
  let df1 := normalize_value_columns df value_columns
  let max_score := max_score_of value_columns
  (df1,
   (List.range df1.nrows).map (fun i =>
     let s := value_score_row df1 value_columns i
     let e := engagement_row df1 i
     { value_score := s, engagement_level := e, quadrant := quadrant_of s e max_score }),
   max_score)

/-- The heterogeneous return of `process_uploaded_data`: a 2-tuple on the
no-content path, a 3-tuple otherwise (whose second component is the value
columns on success, an error message on a caught exception). -/
inductive ProcResult
  | pair (df : Option DataFrame) (msg : String)
  | triple (df : Option DataFrame) (second : List String ⊕ String)
      (original_columns : List String)
deriving DecidableEq

/-- Unpacking a `ProcResult` into three variables, as
`df, value_columns, original_columns = ...` does: a 2-tuple raises
(`none`), a 3-tuple unpacks. -/
def unpack3 (r : ProcResult) :
    Option (Option DataFrame × (List String ⊕ String) × List String) :=
  match r with
  | ProcResult.pair _ _ => none
  | ProcResult.triple df second orig => some (df, second, orig)

/-- The first component (the parsed frame, when any) of a `ProcResult`. -/
def dfOf : ProcResult → Option DataFrame
  | ProcResult.pair df _ => df
  | ProcResult.triple df _ _ => df

/-- Did `process_uploaded_data` return a 3-tuple? -/
def isTriple : ProcResult → Bool
  | ProcResult.pair _ _ => false
  | ProcResult.triple _ _ _ => true

/-- Source `process_uploaded_data`: `contents` is `none` for falsy upload contents;
otherwise the base64 decode / pandas parse in the `try` block is external and
arrives as an `Except` (an exception hits the `except` clause).  On a parsed
frame: keep the original labels, clean the column names, infer the Boolean
Column Set. -/
def process_uploaded_data (contents : Option (Except String DataFrame))
    (filename : String) : ProcResult :=
  match contents with
  | none => ProcResult.pair none "No file uploaded"
  | some (Except.error e) =>
    ProcResult.triple none (Sum.inr ("Error processing file: " ++ e)) []
  | some (Except.ok df) =>
    let original_columns := df.cols.map (fun c => c.1)
    let df_clean := clean_column_names df
    ProcResult.triple (some df_clean) (Sum.inl (value_columns_of df_clean))
      original_columns

/-- The five `dcc.Store` values the upload callback writes. -/
structure Store where
  processed_data : Option (DataFrame × List ProcessedRow)
  value_columns : Option (List String)
  max_value_score : Option ℕ
  filename_store : Option String
  original_columns : Option (List String)
deriving DecidableEq

/-- An empty session: no upload has happened yet. -/
def store0 : Store := ⟨none, none, none, none, none⟩

/-- A `dbc.Alert` shown in `upload-status`, with its color. -/
inductive Alert
  | success (text : String)
  | danger (text : String)
deriving DecidableEq

/-- The text interpolated into `f"Error: {value_columns}"`. -/
def secondText : List String ⊕ String → String
  | Sum.inl cols => String.intercalate ", " cols
  | Sum.inr msg => msg

/-- Source `handle_upload`: `no_update` outputs are modelled by returning the
previous store unchanged; an uncaught exception in the callback body (the
3-way unpack of a 2-tuple) is `Except.error ()`. -/
def handle_upload (prev : Store) (contents : Option (Except String DataFrame))
    (filename : String) : Except Unit (Store × Option Alert) :=
  match contents with
  | none => Except.ok (prev, none)
  | some _ =>
    match unpack3 (process_uploaded_data contents filename) with
    | none => Except.error ()
    | some (df?, second, original_columns) =>
      match df? with
      | none => Except.ok (prev, some (Alert.danger ("Error: " ++ secondText second)))
      | some df =>
        if df.isEmpty then
          Except.ok (prev, some (Alert.danger ("Error: " ++ secondText second)))
        else
          let value_columns := match second with
            | Sum.inl cols => cols
            | Sum.inr _ => []
          let p := process_data df value_columns
          Except.ok
            ({ processed_data := some (p.1, p.2.1),
               value_columns := some value_columns,
               max_value_score := some p.2.2,
               filename_store := some filename,
               original_columns := some original_columns },
             some (Alert.success ("Successfully processed: " ++ filename)))

/-- The uploaded table of the spec's second scenario: four boolean feature
columns, one record with three `Yes`, and a stage column valued
`"Orders 360 Full"`. -/
def scenario_df : DataFrame :=
  ⟨[("Feature A", [some "Yes"]),
    ("Feature B", [some "Yes"]),
    ("Feature C", [some "Yes"]),
    ("Feature D", [some "No"]),
    ("Sales Stage", [some "Orders 360 Full"])]⟩


theorem value_thr_iff (s m : ℕ) : ((s : ℚ) ≥ (m : ℚ) * 0.65) ↔ 13 * m ≤ 20 * s := by
  rw [show (0.65 : ℚ) = 13 / 20 by norm_num, ge_iff_le]
  constructor
  · intro h
    have h2 : (13 * m : ℚ) ≤ 20 * s := by linarith
    exact_mod_cast h2
  · intro h
    have h2 : (13 * m : ℚ) ≤ 20 * s := by exact_mod_cast h
    linarith

theorem value_thr_lt_iff (s m : ℕ) : ((s : ℚ) < (m : ℚ) * 0.65) ↔ 20 * s < 13 * m := by
  rw [← not_le, ← not_le, ← value_thr_iff s m, ge_iff_le]

theorem eng_thr_iff (e : ℕ) : ((e : ℚ) ≥ 2.0) ↔ 2 ≤ e := by
  rw [show (2.0 : ℚ) = ((2 : ℕ) : ℚ) by norm_num, ge_iff_le, Nat.cast_le]

theorem eng_thr_lt_iff (e : ℕ) : ((e : ℚ) < 2.0) ↔ e < 2 := by
  rw [show (2.0 : ℚ) = ((2 : ℕ) : ℚ) by norm_num, Nat.cast_lt]

/-- Helper: `quadrant_of` with the exact rational thresholds cleared to integer
comparisons; this form evaluates by `decide`. -/
def quadrant_nat (value_score engagement_level max_score : ℕ) : String :=
  if 13 * max_score ≤ 20 * value_score ∧ 2 ≤ engagement_level then "Strategic Partners"
  else if 20 * value_score < 13 * max_score ∧ 2 ≤ engagement_level then "Growth Opportunities"
  else if 13 * max_score ≤ 20 * value_score ∧ engagement_level < 2 then "High Value Prospects"
  else if 20 * value_score < 13 * max_score ∧ engagement_level < 2 then "Basic Users"
  else "Unclassified"

theorem quadrant_of_eq_nat (s e m : ℕ) : quadrant_of s e m = quadrant_nat s e m := by
  unfold quadrant_of quadrant_nat
  simp only [value_thr_iff, value_thr_lt_iff, eng_thr_iff, eng_thr_lt_iff]

/-- C1: with `value_threshold = max_score * 0.65` and `engagement_threshold = 2.0`,
the classifier assigns Strategic Partners when `value_score ≥ value_threshold` and
`engagement_level ≥ engagement_threshold`, Growth Opportunities when only the
engagement test holds, High Value Prospects when only the value test holds, and
Basic Users when neither holds; and the scenario table with 4 boolean columns,
one record with 3 `Yes` and stage value "Orders 360 Full" gets
`value_score = 3`, `engagement_level = 4`, `max_score = 4` and quadrant
Strategic Partners. -/
theorem C1_quadrant_assignment :
    (∀ s e m : ℕ,
      ((s : ℚ) ≥ (m : ℚ) * 0.65 → (e : ℚ) ≥ 2.0 →
        quadrant_of s e m = "Strategic Partners") ∧
      ((s : ℚ) < (m : ℚ) * 0.65 → (e : ℚ) ≥ 2.0 →
        quadrant_of s e m = "Growth Opportunities") ∧
      ((s : ℚ) ≥ (m : ℚ) * 0.65 → (e : ℚ) < 2.0 →
        quadrant_of s e m = "High Value Prospects") ∧
      ((s : ℚ) < (m : ℚ) * 0.65 → (e : ℚ) < 2.0 →
        quadrant_of s e m = "Basic Users")) ∧
    (value_columns_of (clean_column_names scenario_df) =
      ["feature_a", "feature_b", "feature_c", "feature_d"] ∧
     (process_data (clean_column_names scenario_df)
        (value_columns_of (clean_column_names scenario_df))).2.2 = 4 ∧
     (process_data (clean_column_names scenario_df)
        (value_columns_of (clean_column_names scenario_df))).2.1 =
       [{ value_score := 3, engagement_level := 4, quadrant := "Strategic Partners" }]) := by
  constructor
  · intro s e m
    refine ⟨fun h1 h2 => ?_, fun h1 h2 => ?_, fun h1 h2 => ?_, fun h1 h2 => ?_⟩
    · unfold quadrant_of
      rw [if_pos ⟨h1, h2⟩]
    · unfold quadrant_of
      rw [if_neg (fun hc => (not_le.mpr h1) hc.1), if_pos ⟨h1, h2⟩]
    · unfold quadrant_of
      rw [if_neg (fun hc => (not_le.mpr h2) hc.2), if_neg (fun hc => (not_le.mpr h2) hc.2),
        if_pos ⟨h1, h2⟩]
    · unfold quadrant_of
      rw [if_neg (fun hc => (not_le.mpr h2) hc.2), if_neg (fun hc => (not_le.mpr h2) hc.2),
        if_neg (fun hc => (not_le.mpr h1) hc.1), if_pos ⟨h1, h2⟩]
  · refine ⟨by decide, ?_, ?_⟩
    · simp only [process_data, quadrant_of_eq_nat]
      decide
    · simp only [process_data, quadrant_of_eq_nat]
      decide

theorem C1_strategic_witness : quadrant_of 3 4 4 = "Strategic Partners" :=
  (C1_quadrant_assignment.1 3 4 4).1 (by norm_num) (by norm_num)

/-- C2: the engagement mapping applies ordered, first-match-wins,
case-insensitive substring tests on the trimmed lowercased stage value
(untouch to 0, free to 1, direct or da-d to 2, lite to 3, full to 4, no
match to 0); in particular a stage value containing both "free" and
"untouch" resolves to 0 because the untouch test runs first. -/
theorem C2_engagement_first_match (stage : String) :
    (containsSubstr (pyLower (pyStrip stage)) "untouch" = true →
      map_engagement_level stage = 0) ∧
    (containsSubstr (pyLower (pyStrip stage)) "untouch" = false →
     containsSubstr (pyLower (pyStrip stage)) "free" = true →
      map_engagement_level stage = 1) ∧
    (containsSubstr (pyLower (pyStrip stage)) "untouch" = false →
     containsSubstr (pyLower (pyStrip stage)) "free" = false →
     (containsSubstr (pyLower (pyStrip stage)) "direct" = true ∨
      containsSubstr (pyLower (pyStrip stage)) "da-d" = true) →
      map_engagement_level stage = 2) ∧
    (containsSubstr (pyLower (pyStrip stage)) "untouch" = false →
     containsSubstr (pyLower (pyStrip stage)) "free" = false →
     containsSubstr (pyLower (pyStrip stage)) "direct" = false →
     containsSubstr (pyLower (pyStrip stage)) "da-d" = false →
     containsSubstr (pyLower (pyStrip stage)) "lite" = true →
      map_engagement_level stage = 3) ∧
    (containsSubstr (pyLower (pyStrip stage)) "untouch" = false →
     containsSubstr (pyLower (pyStrip stage)) "free" = false →
     containsSubstr (pyLower (pyStrip stage)) "direct" = false →
     containsSubstr (pyLower (pyStrip stage)) "da-d" = false →
     containsSubstr (pyLower (pyStrip stage)) "lite" = false →
     containsSubstr (pyLower (pyStrip stage)) "full" = true →
      map_engagement_level stage = 4) ∧
    (containsSubstr (pyLower (pyStrip stage)) "untouch" = false →
     containsSubstr (pyLower (pyStrip stage)) "free" = false →
     containsSubstr (pyLower (pyStrip stage)) "direct" = false →
     containsSubstr (pyLower (pyStrip stage)) "da-d" = false →
     containsSubstr (pyLower (pyStrip stage)) "lite" = false →
     containsSubstr (pyLower (pyStrip stage)) "full" = false →
      map_engagement_level stage = 0) ∧
    (containsSubstr (pyLower (pyStrip stage)) "free" = true →
     containsSubstr (pyLower (pyStrip stage)) "untouch" = true →
      map_engagement_level stage = 0) := by
  refine ⟨fun h1 => ?_, fun h1 h2 => ?_, fun h1 h2 h3 => ?_, fun h1 h2 h3 h4 h5 => ?_,
    fun h1 h2 h3 h4 h5 h6 => ?_, fun h1 h2 h3 h4 h5 h6 => ?_, fun h1 h2 => ?_⟩
  · simp [map_engagement_level, h1]
  · simp [map_engagement_level, h1, h2]
  · rcases h3 with h3 | h3 <;> simp [map_engagement_level, h1, h2, h3]
  · simp [map_engagement_level, h1, h2, h3, h4, h5]
  · simp [map_engagement_level, h1, h2, h3, h4, h5, h6]
  · simp [map_engagement_level, h1, h2, h3, h4, h5, h6]
  · simp [map_engagement_level, h2]

theorem C2_tiebreak_witness : map_engagement_level "Untouched but Free" = 0 :=
  (C2_engagement_first_match "Untouched but Free").2.2.2.2.2.2 (by decide) (by decide)

/-- C5 counterexample: at confidence exactly `0.7` the detector returns the
`'utf-8'` default, not the guess, because the source compares with a strict
`confidence > 0.7`; the claim says confidence not below `0.7` returns the
guess. -/
theorem C5_boundary_counterexample :
    detect_encoding "ascii" 0.7 = "utf-8" ∧ detect_encoding "ascii" 0.7 ≠ "ascii" := by
  have h : detect_encoding "ascii" 0.7 = "utf-8" := by
    unfold detect_encoding
    rw [if_neg (lt_irrefl (0.7 : ℚ))]
  exact ⟨h, by rw [h]; decide⟩

/-- C5 amended: the detector returns the guess exactly when confidence is
strictly above `0.7`, and the `'utf-8'` default when confidence is at most
`0.7` (so at exactly `0.7` it returns the default); it always returns one of
the two, never failing. -/
theorem C5_detect_encoding_amended (encoding : String) (confidence : ℚ) :
    (0.7 < confidence → detect_encoding encoding confidence = encoding) ∧
    (confidence ≤ 0.7 → detect_encoding encoding confidence = "utf-8") ∧
    (detect_encoding encoding confidence = encoding ∨
     detect_encoding encoding confidence = "utf-8") := by
  unfold detect_encoding
  refine ⟨fun h => if_pos h, fun h => if_neg (not_lt.mpr h), ?_⟩
  by_cases h : (0.7 : ℚ) < confidence
  · exact Or.inl (if_pos h)
  · exact Or.inr (if_neg h)

theorem C5_default_witness : detect_encoding "latin-1" 0.7 = "utf-8" :=
  (C5_detect_encoding_amended "latin-1" 0.7).2.1 (le_refl (0.7 : ℚ))

/-- C10: with empty/absent contents, `process_uploaded_data` returns the
2-tuple `(None, "No file uploaded")`, while every other path returns a
3-tuple; a caller that unpacks three values fails on the no-content result,
and the upload callback filters the no-content case out (returning all
`no_update`) before calling the loader. -/
theorem C10_return_shape :
    (∀ filename, process_uploaded_data none filename =
      ProcResult.pair none "No file uploaded") ∧
    (∀ filename, unpack3 (process_uploaded_data none filename) = none) ∧
    (∀ p filename, isTriple (process_uploaded_data (some p) filename) = true) ∧
    (∀ prev filename, handle_upload prev none filename = Except.ok (prev, none)) := by
  refine ⟨fun filename => rfl, fun filename => rfl, ?_, fun prev filename => rfl⟩
  intro p filename
  cases p <;> rfl

theorem C10_no_content_witness :
    unpack3 (process_uploaded_data none "data.csv") = none :=
  C10_return_shape.2.1 "data.csv"

theorem value_score_row_le (df : DataFrame) (vc : List String) (i : ℕ) :
    value_score_row df vc i ≤ max_score_of vc := by
  unfold value_score_row max_score_of
  by_cases h : vc.length = 0
  · rw [List.length_eq_zero] at h
    subst h
    simp
  · rw [if_neg h]
    exact List.countP_le_length _

/-- C7: every record's `value_score` lies in `[0, max_score]` (it is a count,
hence a natural number, and is bounded by `max_score`, the size of the
Boolean Column Set or 1 when that set is empty); in particular every row
`process_data` produces satisfies the bound against the returned
`max_score`. -/
theorem C7_value_score_bounds (df : DataFrame) (value_columns : List String) (i : ℕ) :
    value_score_row df value_columns i ≤ max_score_of value_columns ∧
    ((process_data df value_columns).2.1.all
      (fun r => decide (r.value_score ≤ (process_data df value_columns).2.2))) = true := by
  refine ⟨value_score_row_le df value_columns i, ?_⟩
  rw [List.all_eq_true]
  intro r hr
  simp only [process_data, List.mem_map] at hr
  obtain ⟨j, hj, rfl⟩ := hr
  simp only [process_data, decide_eq_true_eq]
  exact value_score_row_le _ value_columns j

/-- C8: the four quadrant conditions are exhaustive and mutually exclusive
(exactly one holds for every value score, engagement level and max score),
so every record gets one of the four named quadrants and the defensive
default Unclassified is never assigned. -/
theorem C8_quadrants_exhaustive (s e m : ℕ) :
    quadrant_of s e m ≠ "Unclassified" ∧
    (quadrant_of s e m = "Strategic Partners" ∨
     quadrant_of s e m = "Growth Opportunities" ∨
     quadrant_of s e m = "High Value Prospects" ∨
     quadrant_of s e m = "Basic Users") ∧
    ([decide ((s : ℚ) ≥ (m : ℚ) * 0.65 ∧ (e : ℚ) ≥ 2.0),
      decide ((s : ℚ) < (m : ℚ) * 0.65 ∧ (e : ℚ) ≥ 2.0),
      decide ((s : ℚ) ≥ (m : ℚ) * 0.65 ∧ (e : ℚ) < 2.0),
      decide ((s : ℚ) < (m : ℚ) * 0.65 ∧ (e : ℚ) < 2.0)].count true) = 1 := by
  rcases le_or_lt ((m : ℚ) * 0.65) (s : ℚ) with ha | ha <;>
    rcases le_or_lt (2.0 : ℚ) (e : ℚ) with hb | hb
  · have ha' : ¬ (s : ℚ) < (m : ℚ) * 0.65 := not_lt.mpr ha
    have hb' : ¬ (e : ℚ) < 2.0 := not_lt.mpr hb
    have hq : quadrant_of s e m = "Strategic Partners" := by
      unfold quadrant_of
      rw [if_pos ⟨ha, hb⟩]
    refine ⟨by rw [hq]; decide, Or.inl hq, ?_⟩
    rw [decide_eq_true ⟨ha, hb⟩, decide_eq_false (fun hc => ha' hc.1),
      decide_eq_false (fun hc => hb' hc.2), decide_eq_false (fun hc => ha' hc.1)]
    rfl
  · have ha' : ¬ (s : ℚ) < (m : ℚ) * 0.65 := not_lt.mpr ha
    have hb' : ¬ (2.0 : ℚ) ≤ (e : ℚ) := not_le.mpr hb
    have hq : quadrant_of s e m = "High Value Prospects" := by
      unfold quadrant_of
      rw [if_neg (fun hc => hb' hc.2), if_neg (fun hc => hb' hc.2), if_pos ⟨ha, hb⟩]
    refine ⟨by rw [hq]; decide, Or.inr (Or.inr (Or.inl hq)), ?_⟩
    rw [decide_eq_false (fun hc => hb' hc.2), decide_eq_false (fun hc => hb' hc.2),
      decide_eq_true ⟨ha, hb⟩, decide_eq_false (fun hc => ha' hc.1)]
    rfl
  · have ha' : ¬ ((m : ℚ) * 0.65) ≤ (s : ℚ) := not_le.mpr ha
    have hb' : ¬ (e : ℚ) < 2.0 := not_lt.mpr hb
    have hq : quadrant_of s e m = "Growth Opportunities" := by
      unfold quadrant_of
      rw [if_neg (fun hc => ha' hc.1), if_pos ⟨ha, hb⟩]
    refine ⟨by rw [hq]; decide, Or.inr (Or.inl hq), ?_⟩
    rw [decide_eq_false (fun hc => ha' hc.1), decide_eq_true ⟨ha, hb⟩,
      decide_eq_false (fun hc => ha' hc.1), decide_eq_false (fun hc => hb' hc.2)]
    rfl
  · have ha' : ¬ ((m : ℚ) * 0.65) ≤ (s : ℚ) := not_le.mpr ha
    have hb' : ¬ (2.0 : ℚ) ≤ (e : ℚ) := not_le.mpr hb
    have hq : quadrant_of s e m = "Basic Users" := by
      unfold quadrant_of
      rw [if_neg (fun hc => ha' hc.1), if_neg (fun hc => hb' hc.2),
        if_neg (fun hc => ha' hc.1), if_pos ⟨ha, hb⟩]
    refine ⟨by rw [hq]; decide, Or.inr (Or.inr (Or.inr hq)), ?_⟩
    rw [decide_eq_false (fun hc => ha' hc.1), decide_eq_false (fun hc => hb' hc.2),
      decide_eq_false (fun hc => ha' hc.1), decide_eq_true ⟨ha, hb⟩]
    rfl

theorem C8_quadrant_witness :
    quadrant_of 2 1 4 = "Strategic Partners" ∨
    quadrant_of 2 1 4 = "Growth Opportunities" ∨
    quadrant_of 2 1 4 = "High Value Prospects" ∨
    quadrant_of 2 1 4 = "Basic Users" :=
  (C8_quadrants_exhaustive 2 1 4).2.1

/-- C3: boolean value normalization rewrites every cell of every
boolean-like column to exactly "Yes" or "No": a value whose trimmed
lowercase form is in the yes-vocabulary maps to "Yes", every other value
(blank included, which stringifies to "nan") maps to "No"; the operation is
total, never raising. -/
theorem C3_value_normalization (df : DataFrame) (value_columns : List String)
    (name : String) (v : Cell) :
    (name ∈ value_columns →
      getCol (normalize_value_columns df value_columns) name =
        (getCol df name).map (fun w => some (normalize_bool_cell w))) ∧
    (normalize_bool_cell v = "Yes" ∨ normalize_bool_cell v = "No") ∧
    (pyLower (pyStrip (cellStr v)) ∈ yesVocab →
      normalize_bool_cell v = "Yes") ∧
    (pyLower (pyStrip (cellStr v)) ∉ yesVocab →
      normalize_bool_cell v = "No") := by
  refine ⟨fun hmem => ?_, ?_, fun h => ?_, fun h => ?_⟩
  · obtain ⟨l⟩ := df
    unfold normalize_value_columns getCol
    simp only
    rw [List.find?_map]
    have hp : ((fun c => c.1 == name) ∘ (fun (c : String × List Cell) =>
        if value_columns.contains c.1 then
          (c.1, c.2.map (fun v => some (normalize_bool_cell v)))
        else c)) = (fun (c : String × List Cell) => c.1 == name) := by
      funext c
      by_cases hc : c.1 ∈ value_columns <;> simp [hc]
    rw [hp]
    cases hf : l.find? (fun c => c.1 == name) with
    | none => simp
    | some c =>
      have hc1 : c.1 = name := by
        have h2 := List.find?_some hf
        simpa using h2
      have hcmem : c.1 ∈ value_columns := by rw [hc1]; exact hmem
      simp [hcmem]
  · by_cases h : pyLower (pyStrip (cellStr v)) ∈ yesVocab
    · exact Or.inl (by simp [normalize_bool_cell, h])
    · exact Or.inr (by simp [normalize_bool_cell, h])
  · simp [normalize_bool_cell, h]
  · simp [normalize_bool_cell, h]

theorem C3_yes_witness : normalize_bool_cell (some " TRUE ") = "Yes" :=
  (C3_value_normalization ⟨[]⟩ [] "" (some " TRUE ")).2.2.1 (by decide)

/-- C4: a column is included in the Boolean Column Set iff the set of its
distinct trimmed lowercased non-blank values is a subset of the boolean
vocabulary; a column with zero non-blank values is vacuously included; and a
per-column error skips only that column, leaving the rest of the table's
inference unchanged. -/
theorem C4_bool_column_inference (name : String) (cells : List Cell)
    (rest pre post : List (String × Except Unit (List Cell))) (err : Unit) :
    (inferBoolCols ((name, Except.ok cells) :: rest) =
      if ∀ v ∈ uniqueVals cells, v ∈ boolVocab then name :: inferBoolCols rest
      else inferBoolCols rest) ∧
    (cells.filterMap id = [] →
      inferBoolCols ((name, Except.ok cells) :: rest) = name :: inferBoolCols rest) ∧
    (inferBoolCols (pre ++ (name, Except.error err) :: post) =
      inferBoolCols (pre ++ post)) := by
  have hiff : (isBoolCol cells = true) ↔ (∀ v ∈ uniqueVals cells, v ∈ boolVocab) := by
    unfold isBoolCol
    rw [List.all_eq_true]
    constructor
    · intro h v hv
      simpa using h v hv
    · intro h v hv
      simpa using h v hv
  refine ⟨?_, fun hblank => ?_, ?_⟩
  · simp only [inferBoolCols]
    by_cases h : isBoolCol cells = true
    · rw [if_pos h, if_pos (hiff.mp h)]
    · rw [if_neg h, if_neg (fun hp => h (hiff.mpr hp))]
  · simp only [inferBoolCols]
    have hb : isBoolCol cells = true := by
      unfold isBoolCol uniqueVals
      rw [hblank]
      rfl
    rw [if_pos hb]
  · induction pre with
    | nil => rfl
    | cons q qre ih =>
      obtain ⟨n, ex⟩ := q
      cases ex with
      | ok cs => simp only [List.cons_append, inferBoolCols, List.append_eq, ih]
      | error e2 => simp only [List.cons_append, inferBoolCols, List.append_eq, ih]

theorem C4_blank_column_witness :
    inferBoolCols [("empty_col", Except.ok [(none : Cell)])] = ["empty_col"] :=
  (C4_bool_column_inference "empty_col" [(none : Cell)] [] [] [] ()).2.1 (by decide)

/-- C6: when an upload yields no table (the parse raised) or a parsed table
with zero rows, `handle_upload` shows a danger alert with an error message
and returns the previous store unchanged: no snapshot is created and all
five stored values keep their prior contents. -/
theorem C6_load_failure_preserves_state (prev : Store) (p : Except String DataFrame)
    (filename : String)
    (hfail : dfOf (process_uploaded_data (some p) filename) = none ∨
      ∃ df, dfOf (process_uploaded_data (some p) filename) = some df ∧
        df.isEmpty = true) :
    ∃ msg, handle_upload prev (some p) filename =
      Except.ok (prev, some (Alert.danger msg)) := by
  cases p with
  | error e =>
    exact ⟨"Error: " ++ secondText (Sum.inr ("Error processing file: " ++ e)), rfl⟩
  | ok df =>
    rcases hfail with h | ⟨d, hd, he⟩
    · exact absurd h (by simp [process_uploaded_data, dfOf])
    · have hde : clean_column_names df = d := by
        simpa [process_uploaded_data, dfOf] using hd
      subst hde
      refine ⟨"Error: " ++
        secondText (Sum.inl (value_columns_of (clean_column_names df))), ?_⟩
      simp only [handle_upload, process_uploaded_data, unpack3]
      rw [if_pos he]

theorem C6_parse_error_witness :
    ∃ msg, handle_upload store0 (some (Except.error "boom")) "f.csv" =
      Except.ok (store0, some (Alert.danger msg)) :=
  C6_load_failure_preserves_state store0 (Except.error "boom") "f.csv" (Or.inl rfl)

/-- C9 counterexample: two labels "A B" and "a_b" both normalize to the key
"a_b" and BOTH columns are retained under that key, so the later column's
values are not the ones retained (last-one-wins is false: the earlier
column's values are still present). -/
theorem C9_collision_counterexample :
    (clean_column_names ⟨[("A B", [some "1"]), ("a_b", [some "2"])]⟩).cols =
      [("a_b", [some "1"]), ("a_b", [some "2"])] ∧
    ((clean_column_names ⟨[("A B", [some "1"]), ("a_b", [some "2"])]⟩).cols.filter
        (fun c => c.1 == "a_b")).map (fun c => c.2) ≠ [[some "2"]] := by
  exact ⟨by decide, by decide⟩

/-- C9 amended: the normalizer produces for every original label the
canonical key obtained by trimming, lowercasing and replacing spaces with
underscores, preserving every column's values and order; when two labels
normalize to the same key the collision is NOT resolved: all colliding
columns remain, in order, under that key. -/
theorem C9_column_normalizer (df : DataFrame) (key : String) :
    (clean_column_names df).cols.map (fun c => c.1) =
      df.cols.map (fun c => pyReplaceSpace (pyLower (pyStrip c.1))) ∧
    (clean_column_names df).cols.map (fun c => c.2) = df.cols.map (fun c => c.2) ∧
    ((clean_column_names df).cols.filter (fun c => c.1 == key)).map (fun c => c.2) =
      (df.cols.filter (fun c => normalize_label c.1 == key)).map (fun c => c.2) := by
  obtain ⟨l⟩ := df
  refine ⟨?_, ?_, ?_⟩
  · simp only [clean_column_names, List.map_map]
    rfl
  · simp only [clean_column_names, List.map_map]
    rfl
  · unfold clean_column_names
    simp only
    induction l with
    | nil => rfl
    | cons c restl ih =>
      simp only [List.map_cons, List.filter_cons]
      by_cases hc : (normalize_label c.1 == key) = true
      · rw [if_pos hc, if_pos hc]
        simp only [List.map_cons]
        rw [ih]
      · rw [if_neg hc, if_neg hc]
        exact ih

end SalesValueMatrix
